import Mathlib

/-!
Verification of the tx-meta-effects parser core: a shallow embedding of the
effect-derivation engine (`EffectsAnalyzer`), the diagnostic-event interpreter
(`EventsAnalyzer`) and the analyzer primitives, together with theorems about
the behaviour of each embedded function.

Amount and balance values carried by ledger-entry snapshots are modelled as
exact integers (the source manipulates them through BigInt); the decimal
strings stored on emitted effects are produced by `intToDec`, which models
the canonical `BigInt.prototype.toString` rendering.
-/

/-- Decimal digit character for a digit value, as produced by decimal
rendering of integers. -/
def digitChar (d : Nat) : Char :=
  if d = 0 then '0' else if d = 1 then '1' else if d = 2 then '2'
  else if d = 3 then '3' else if d = 4 then '4' else if d = 5 then '5'
  else if d = 6 then '6' else if d = 7 then '7' else if d = 8 then '8'
  else '9'

/-- Digit list of a natural number, most significant first; `fuel` bounds the
recursion depth and any `fuel ≥ n` is adequate. -/
def natDigitsAux : Nat → Nat → List Char
  | 0, _ => []
  | fuel + 1, n =>
    if n = 0 then [] else natDigitsAux fuel (n / 10) ++ [digitChar (n % 10)]

/-- Canonical decimal string of a natural number. -/
def natDecStr (n : Nat) : String :=
  String.mk (if n = 0 then ['0'] else natDigitsAux n n)

/-- Canonical decimal string of an integer: models the `toString` rendering of
a JavaScript BigInt or integral Number. -/
def intToDec (i : Int) : String :=
  if i < 0 then "-" ++ natDecStr (-i).toNat else natDecStr i.toNat

/-- An effect record: a heterogeneous object identified by the `type` tag,
with every conditionally-present field modelled as an `Option`.  Field names
follow the source; effect-kind strings mirror the keys of the effect-types
module. -/
structure Effect where
  type : String
  source : Option String
  asset : Option String
  amount : Option String
  balance : Option String
  contract : Option String
  function : Option String
  args : Option String
  depth : Option Nat
  result : Option String
  pool : Option String
  assets : Option (List (String × String))
  shares : Option String
  reserves : Option (List (String × String))
  accounts : Option Int
  kind : Option String
  flags : Option Int
  limit : Option String
  sponsor : Option String
  wasmHash : Option String
  prevWasmHash : Option String
  owner : Option String
  key : Option String
  value : Option String
  prevValue : Option String
  durability : Option String
deriving Repr, DecidableEq

/-- The effect record with no field set: the base for building concrete
effects. -/
def emptyEffect : Effect :=
  { type := ""
    source := none
    asset := none
    amount := none
    balance := none
    contract := none
    function := none
    args := none
    depth := none
    result := none
    pool := none
    assets := none
    shares := none
    reserves := none
    accounts := none
    kind := none
    flags := none
    limit := none
    sponsor := none
    wasmHash := none
    prevWasmHash := none
    owner := none
    key := none
    value := none
    prevValue := none
    durability := none }

/-- Mutable state owned by one `EffectsAnalyzer` instance: the operation
source, the ordered effect list, and the diagnostic-event call stack.  A call
frame is represented by the index of its invocation effect in `effects`
(the source aliases the frame object with the appended effect; during
diagnostic-event processing effects are only pushed, so indices are stable). -/
structure EngineState where
  source : String
  effects : List Effect
  callStack : List Nat
deriving Repr, DecidableEq

deriving instance DecidableEq for Except

/-- `addEffect` defaults the effect source to the operation source when the
effect carries none. -/
def resolveSource (st : EngineState) (e : Effect) : Effect :=
  match e.source with
  | none => { e with source := some st.source }
  | some _ => e

/-- JavaScript `Array.prototype.splice(p, 0, e)` insertion: the index is
clamped to the array length. -/
def jsSpliceInsert (l : List Effect) (p : Nat) (e : Effect) : List Effect :=
  l.take p ++ e :: l.drop p

/-- JavaScript `Array.prototype.findIndex`: index of the first match, `-1`
when none matches. -/
def jsFindIndex (p : Effect → Bool) (l : List Effect) : Int :=
  match l.findIdx? p with
  | some i => (i : Int)
  | none => -1

namespace EffectsAnalyzer

/-- `EffectsAnalyzer.addEffect(effect, atPosition)`: defaults the source, then
either pushes the effect or splices it in at `atPosition` (a negative
position becomes position `0`). -/
def addEffect (st : EngineState) (e : Effect) (atPosition : Option Int) : EngineState :=
  let e := resolveSource st e
  match atPosition with
  | none => { st with effects := st.effects ++ [e] }
  | some p =>
    { st with effects := jsSpliceInsert st.effects (if p < 0 then 0 else p.toNat) e }

/-- `EffectsAnalyzer.debit(amount, asset, source, balance)`: no-op when the
amount string equals "0", otherwise appends one accountDebited effect. -/
def debit (st : EngineState) (amount asset source : String) (balance : Option String) : EngineState :=
  if amount = "0" then st
  else addEffect st
    { emptyEffect with
        type := "accountDebited"
        source := some source
        asset := some asset
        amount := some amount
        balance := balance } none

/-- `EffectsAnalyzer.credit(amount, asset, source, balance)`: no-op when the
amount string equals "0", otherwise appends one accountCredited effect. -/
def credit (st : EngineState) (amount asset source : String) (balance : Option String) : EngineState :=
  if amount = "0" then st
  else addEffect st
    { emptyEffect with
        type := "accountCredited"
        source := some source
        asset := some asset
        amount := some amount
        balance := balance } none

end EffectsAnalyzer

namespace EventsAnalyzer

/-- `EventsAnalyzer.debit(from, asset, amount)`: unconditionally appends one
accountDebited effect (no zero-amount check on this path). -/
def debit (st : EngineState) (from_ : String) (asset amount : Option String) : EngineState :=
  EffectsAnalyzer.addEffect st
    { emptyEffect with
        type := "accountDebited"
        source := some from_
        asset := asset
        amount := amount } none

/-- `EventsAnalyzer.credit(to, asset, amount)`: unconditionally appends one
accountCredited effect (no zero-amount check on this path). -/
def credit (st : EngineState) (to_ : String) (asset amount : Option String) : EngineState :=
  EffectsAnalyzer.addEffect st
    { emptyEffect with
        type := "accountCredited"
        source := some to_
        asset := asset
        amount := amount } none

end EventsAnalyzer

/-- A decoded event topic: `arm` models the XDR union arm tag (such as
"address", "sym" or "str") and `value` the result of `xdrParseScVal` on the
topic. -/
structure Topic where
  arm : String
  value : String
deriving Repr, DecidableEq

/-- A decoded event body payload: either the void value, or a value carrying
its `xdrParseScVal` rendering and its base64 XDR serialization. -/
inductive EventData where
  | voidD : EventData
  | value : String → String → EventData
deriving Repr, DecidableEq

/-- `processEventBodyValue`: the void value decodes to nothing, any other
value to its parsed rendering. -/
def eventDataParsed : EventData → Option String
  | EventData.voidD => none
  | EventData.value p _ => some p

/-- `isContractAddress`: 56 characters long and starting with the
contract-address prefix C. -/
def isContractAddress (address : String) : Bool :=
  address.length = 56 && address.front = 'C'

/-- Positional matcher for the declared shape entries against `topics[1..]`:
a present topic must carry the declared arm; an absent topic is accepted only
when the entry is marked optional with a trailing question mark. -/
def matchShapeGo : List Topic → List String → Bool
  | _, [] => true
  | ts, m :: rest =>
    let optional := m.data.getLast? == some '?'
    let base := if optional then m.dropRight 1 else m
    match ts with
    | [] => if optional then matchShapeGo [] rest else false
    | t :: ts' => if t.arm = base then matchShapeGo ts' rest else false

/-- `matchEventTopicsShape(topics, shape)`: fails when more than one topic
beyond the declared shape is present, then matches the shape positionally
against the topics after the event-name topic. -/
def matchEventTopicsShape (topics : List Topic) (shape : List String) : Bool :=
  if topics.length > shape.length + 1 then false
  else matchShapeGo (topics.drop 1) shape

namespace EventsAnalyzer

/-- The fn_call branch of `processDiagnosticEvent`: builds the invocation
effect, attaches `depth` only when the call stack is non-empty (equal to the
stack size before pushing), pushes the frame and appends the effect. -/
def procFnCall (st : EngineState) (rest : List Topic) (data : EventData) : Except String EngineState :=
  match rest with
  | t1 :: t2 :: _ =>
    let e := { emptyEffect with
      type := "contractInvoked"
      contract := some t1.value
      function := some t2.value
      args := eventDataParsed data
      depth := if st.callStack.length = 0 then none else some st.callStack.length }
    Except.ok { st with
      callStack := st.effects.length :: st.callStack
      effects := st.effects ++ [resolveSource st e] }
  | _ => Except.error "missing fn_call topics"

/-- The fn_return branch of `processDiagnosticEvent`: skipped for
non-diagnostic events; otherwise pops the top frame and, for a non-void
result, patches the popped invocation effect with the serialized result.
Popping an empty stack yields undefined, so patching it is a type error. -/
def procFnReturn (st : EngineState) (data : EventData) (evType : Nat) : Except String EngineState :=
  if evType ≠ 2 then Except.ok st
  else
    match st.callStack, data with
    | [], EventData.voidD => Except.ok st
    | [], EventData.value _ _ => Except.error "TypeError: cannot set property of undefined"
    | _ :: restS, EventData.voidD => Except.ok { st with callStack := restS }
    | idx :: restS, EventData.value _ raw =>
      Except.ok { st with
        callStack := restS
        effects := st.effects.set idx
          { st.effects.getD idx emptyEffect with result := some raw } }

/-- The transfer branch of `processDiagnosticEvent`: the asset is the event
contract id; when it is a contract address, a debit is emitted only for a
contract-addressed sender and a credit only for a contract-addressed
recipient, otherwise both are always emitted. -/
def procTransfer (st : EngineState) (rest : List Topic) (data : EventData) (contractId : Option String) : Except String EngineState :=
  match rest with
  | t1 :: t2 :: _ =>
    match contractId with
    | none => Except.error "TypeError: cannot read properties of null"
    | some asset =>
      let amount := eventDataParsed data
      let isClassicAsset := isContractAddress asset
      let st1 := if !isClassicAsset || isContractAddress t1.value
        then debit st t1.value (some asset) amount else st
      let st2 := if !isClassicAsset || isContractAddress t2.value
        then credit st1 t2.value (some asset) amount else st1
      Except.ok st2
  | _ => Except.error "missing transfer topics"

/-- The mint branch of `processDiagnosticEvent`: validates the topic shape,
appends an assetMinted effect and credits the recipient. -/
def procMint (st : EngineState) (topics : List Topic) (data : EventData) (contractId : Option String) : Except String EngineState :=
  if !matchEventTopicsShape topics ["address", "address", "str?"]
  then Except.error "Non-standard event"
  else
    match topics with
    | _ :: t1 :: _ =>
      let amount := eventDataParsed data
      let st1 := EffectsAnalyzer.addEffect st
        { emptyEffect with type := "assetMinted", asset := contractId, amount := amount } none
      Except.ok (credit st1 t1.value contractId amount)
    | _ => Except.error "missing mint topics"

/-- The burn branch of `processDiagnosticEvent`: validates the topic shape,
debits the source and appends an assetBurned effect. -/
def procBurn (st : EngineState) (topics : List Topic) (data : EventData) (contractId : Option String) : Except String EngineState :=
  if !matchEventTopicsShape topics ["address", "str?"]
  then Except.error "Non-standard event"
  else
    match topics with
    | _ :: t1 :: _ =>
      let amount := eventDataParsed data
      let st1 := debit st t1.value contractId amount
      Except.ok (EffectsAnalyzer.addEffect st1
        { emptyEffect with type := "assetBurned", asset := contractId, amount := amount } none)
    | _ => Except.error "missing burn topics"

/-- The clawback branch of `processDiagnosticEvent`: validates the topic
shape and then unconditionally raises; the debit/credit statements after the
raise are unreachable. -/
def procClawback (_st : EngineState) (topics : List Topic) : Except String EngineState :=
  if !matchEventTopicsShape topics ["address", "address", "str?"]
  then Except.error "Non-standard event"
  else Except.error "Check state modifications to confirm the clawback destination"

/-- `EventsAnalyzer.processDiagnosticEvent(body, type, contractId)`: dispatch
on the parsed first topic; unrecognized event names produce no effect. -/
def processDiagnosticEvent (st : EngineState) (topics : List Topic) (data : EventData) (evType : Nat) (contractId : Option String) : Except String EngineState :=
  match topics with
  | [] => Except.error "missing event name topic"
  | t0 :: rest =>
    if t0.value = "fn_call" then procFnCall st rest data
    else if t0.value = "fn_return" then procFnReturn st data evType
    else if t0.value = "transfer" then procTransfer st rest data contractId
    else if t0.value = "mint" then procMint st (t0 :: rest) data contractId
    else if t0.value = "burn" then procBurn st (t0 :: rest) data contractId
    else if t0.value = "clawback" then procClawback st (t0 :: rest)
    else Except.ok st

end EventsAnalyzer

/-- A diagnostic event as consumed by `analyzeDiagnosticEvents`: decoded
topics, body payload, event type tag (2 denotes diagnostic), optional event
contract id and the success flag of the enclosing contract call. -/
structure DiagEvent where
  topics : List Topic
  data : EventData
  type : Nat
  contractId : Option String
  inSuccessfulContractCall : Bool
deriving Repr, DecidableEq

namespace EventsAnalyzer

/-- `EventsAnalyzer.analyzeDiagnosticEvents`: rejects events outside a
successful contract call, then processes each event in order. -/
def analyzeDiagnosticEvents (st : EngineState) : List DiagEvent → Except String EngineState
  | [] => Except.ok st
  | ev :: rest =>
    if !ev.inSuccessfulContractCall
    then Except.error "UnexpectedTxMetaChange: diagnostic_event failed"
    else
      match processDiagnosticEvent st ev.topics ev.data ev.type ev.contractId with
      | Except.error m => Except.error m
      | Except.ok st1 => analyzeDiagnosticEvents st1 rest

end EventsAnalyzer

/-- An event whose first topic parses to fn_call. -/
def isFnCallEvent (ev : DiagEvent) : Bool :=
  match ev.topics with
  | t :: _ => t.value == "fn_call"
  | [] => false

/-- A diagnostic-class event whose first topic parses to fn_return. -/
def isDiagFnReturnEvent (ev : DiagEvent) : Bool :=
  (match ev.topics with
   | t :: _ => t.value == "fn_return"
   | [] => false) && ev.type == 2

/-- Call-stack size transition of one diagnostic event: fn_call pushes one
frame, a diagnostic fn_return pops one (popping an empty stack leaves it
empty), every other event leaves the stack unchanged. -/
def stackDelta (ev : DiagEvent) (n : Nat) : Nat :=
  if isFnCallEvent ev then n + 1 else if isDiagFnReturnEvent ev then n - 1 else n

/-- Number of fn_call events in a list. -/
def countFnCalls (evs : List DiagEvent) : Nat :=
  (evs.filter (fun e => isFnCallEvent e)).length

/-- Number of diagnostic-class fn_return events in a list. -/
def countDiagFnReturns (evs : List DiagEvent) : Nat :=
  (evs.filter (fun e => isDiagFnReturnEvent e)).length

namespace EffectsAnalyzer

/-- `EffectsAnalyzer.mint(asset, amount, autoLookupPosition)`: with auto
lookup, the insert position is the index of the first effect matching the
asset directly or through its per-asset list; `findIndex` yields `-1` when
nothing matches. -/
def mint (st : EngineState) (asset amount : String) (autoLookupPosition : Bool) : EngineState :=
  let position := if autoLookupPosition
    then some (jsFindIndex (fun e => e.asset == some asset ||
      (match e.assets with
       | some l => l.any (fun a => a.1 == asset)
       | none => false)) st.effects)
    else none
  addEffect st
    { emptyEffect with type := "assetMinted", asset := some asset, amount := some amount }
    position

/-- `EffectsAnalyzer.burn(asset, amount, position)`. -/
def burn (st : EngineState) (asset amount : String) (position : Option Int) : EngineState :=
  addEffect st
    { emptyEffect with type := "assetBurned", asset := some asset, amount := some amount }
    position

/-- `EffectsAnalyzer.processBalanceChange(account, asset, beforeBalance,
afterBalance)`: a negative balance delta debits its magnitude, otherwise the
delta is credited; the resulting balance is attached. -/
def processBalanceChange (st : EngineState) (account asset : String) (beforeBalance afterBalance : Int) : EngineState :=
  let balanceChange := afterBalance - beforeBalance
  if balanceChange < 0
  then debit st (intToDec (-balanceChange)) asset account (some (intToDec afterBalance))
  else credit st (intToDec balanceChange) asset account (some (intToDec afterBalance))

end EffectsAnalyzer

/-- A trustline ledger-entry snapshot. -/
structure TLSnapshot where
  account : String
  asset : String
  balance : Int
  limit : String
  flags : Int
  sponsor : Option String
deriving Repr, DecidableEq

namespace EffectsAnalyzer

/-- `EffectsAnalyzer.processTrustlineEffectsChanges(change)`: builds the
trustline effect from the surviving snapshot; on update emits the balance
delta first and suppresses the update effect when limit and flags are
unchanged; on removal emits the balance debit (for a positive balance)
immediately before the trustlineRemoved effect. -/
def processTrustlineEffectsChanges (st : EngineState) (action : String) (before after : Option TLSnapshot) : Except String EngineState :=
  match after.orElse (fun _ => before) with
  | none => Except.error "TypeError: no snapshot"
  | some snapshot =>
    let trustEffect := { emptyEffect with
      type := ""
      source := some snapshot.account
      asset := some snapshot.asset
      kind := some (if snapshot.asset.data.contains '-' then "asset" else "poolShares")
      flags := some snapshot.flags
      sponsor := snapshot.sponsor }
    if action = "created" then
      Except.ok (addEffect st
        { trustEffect with type := "trustlineCreated", limit := some snapshot.limit } none)
    else if action = "updated" then
      match before, after with
      | some b, some a =>
        let st1 := if b.balance ≠ a.balance
          then processBalanceChange st a.account a.asset b.balance a.balance
          else st
        if b.limit = a.limit ∧ b.flags = a.flags then Except.ok st1
        else Except.ok (addEffect st1
          { trustEffect with type := "trustlineUpdated", limit := some snapshot.limit } none)
      | _, _ => Except.error "TypeError: missing snapshot"
    else if action = "removed" then
      match before with
      | some b =>
        let st1 := if b.balance > 0
          then processBalanceChange st b.account b.asset b.balance 0
          else st
        Except.ok (addEffect st1 { trustEffect with type := "trustlineRemoved" } none)
      | none => Except.error "TypeError: missing before snapshot"
    else Except.ok (addEffect st trustEffect none)

end EffectsAnalyzer

/-- A liquidity-pool ledger-entry snapshot. -/
structure LPSnapshot where
  pool : String
  asset : List String
  amount : List Int
  shares : Int
  accounts : Int
  sponsor : Option String
deriving Repr, DecidableEq

/-- A ledger-entry change record as consumed by the liquidity-pool deposit
and withdraw handlers. -/
structure LPChange where
  type : String
  action : String
  before : Option LPSnapshot
  after : Option LPSnapshot
deriving Repr, DecidableEq

/-- Per-index reserve deltas: pairs each pool asset with the decimal
rendering of the difference of the corresponding amounts. -/
def lpDeltaAssets (assets : List String) (fromAm toAm : List Int) : List (String × String) :=
  (List.range assets.length).map
    (fun i => (assets.getD i "", intToDec (fromAm.getD i 0 - toAm.getD i 0)))

namespace EffectsAnalyzer

/-- `EffectsAnalyzer.liquidityPoolDeposit()`: finds the updated pool change
for the operation pool id and appends one liquidityPoolDeposited effect with
per-asset amounts `after.amount[i] - before.amount[i]` and shares
`after.shares - before.shares`. -/
def liquidityPoolDeposit (st : EngineState) (liquidityPoolId : String) (changes : List LPChange) : Except String EngineState :=
  match changes.find? (fun ch => ch.type == "liquidityPool" && ch.action == "updated" &&
      (match ch.after with
       | some a => a.pool == liquidityPoolId
       | none => false)) with
  | none => Except.error "TypeError: no matching change"
  | some ch =>
    match ch.before, ch.after with
    | some b, some a =>
      Except.ok (addEffect st { emptyEffect with
        type := "liquidityPoolDeposited"
        pool := some liquidityPoolId
        assets := some (lpDeltaAssets a.asset a.amount b.amount)
        shares := some (intToDec (a.shares - b.shares)) } none)
    | _, _ => Except.error "TypeError: missing snapshot"

/-- `EffectsAnalyzer.liquidityPoolWithdraw()`: finds the updated pool change
for the operation pool id and appends one liquidityPoolWithdrew effect with
per-asset amounts `before.amount[i] - after.amount[i]` and shares
`before.shares - after.shares`. -/
def liquidityPoolWithdraw (st : EngineState) (pool : String) (changes : List LPChange) : Except String EngineState :=
  match changes.find? (fun ch => ch.type == "liquidityPool" && ch.action == "updated" &&
      (match ch.before with
       | some b => b.pool == pool
       | none => false)) with
  | none => Except.error "TypeError: no matching change"
  | some ch =>
    match ch.before, ch.after with
    | some b, some a =>
      Except.ok (addEffect st { emptyEffect with
        type := "liquidityPoolWithdrew"
        pool := some pool
        assets := some (lpDeltaAssets b.asset b.amount a.amount)
        shares := some (intToDec (b.shares - a.shares)) } none)
    | _, _ => Except.error "TypeError: missing snapshot"

/-- `EffectsAnalyzer.processLiquidityPoolChanges(change)`: a created pool is
inserted before the first existing effect referencing the pool id (at the
front when the position search finds nothing); an updated pool appends a
full snapshot effect; any other action appends liquidityPoolRemoved. -/
def processLiquidityPoolChanges (st : EngineState) (action : String) (before after : Option LPSnapshot) : Except String EngineState :=
  match after.orElse (fun _ => before) with
  | none => Except.error "TypeError: no snapshot"
  | some snapshot =>
    let base := { emptyEffect with
      type := "liquidityPoolRemoved"
      pool := some snapshot.pool
      sponsor := snapshot.sponsor }
    if action = "created" then
      match after with
      | none => Except.error "TypeError: missing after snapshot"
      | some a =>
        let effect := { base with
          type := "liquidityPoolCreated"
          reserves := some (a.asset.map (fun asset => (asset, "0")))
          shares := some "0"
          accounts := some 1 }
        Except.ok (addEffect st effect
          (some (jsFindIndex
            (fun e => e.pool == effect.pool || e.asset == effect.pool) st.effects)))
    else if action = "updated" then
      match after with
      | none => Except.error "TypeError: missing after snapshot"
      | some a =>
        Except.ok (addEffect st { base with
          type := "liquidityPoolUpdated"
          reserves := some ((List.range a.asset.length).map
            (fun i => (a.asset.getD i "", intToDec (a.amount.getD i 0))))
          shares := some (intToDec a.shares)
          accounts := some a.accounts } none)
    else Except.ok (addEffect st base none)

end EffectsAnalyzer

/-- A contract ledger-entry snapshot: contract id, kind, code hash and
optional instance-storage entry list. -/
structure ContractSnapshot where
  contract : String
  kind : String
  hash : Option String
  storage : Option (List (String × String))
deriving Repr, DecidableEq

/-- Finds a storage entry by key and removes it from the list, keeping the
order of the remaining entries (the splice in the instance-storage differ). -/
def extractStorageKey (key : String) : List (String × String) → Option (String × List (String × String))
  | [] => none
  | kv :: rest =>
    if kv.1 == key then some (kv.2, rest)
    else
      match extractStorageKey key rest with
      | some (v, rest') => some (v, kv :: rest')
      | none => none

/-- Owner of instance-storage effects: the after contract id, falling back to
the before contract id when absent. -/
def instanceOwner (before after : ContractSnapshot) : String :=
  if after.contract = "" then before.contract else after.contract

namespace EffectsAnalyzer

/-- Loop of `processInstanceDataChanges`: each before entry missing from the
after list emits contractDataRemoved, each changed value contractDataUpdated,
and the leftover after entries emit contractDataCreated in order. -/
def processInstanceLoop (owner : String) (st : EngineState) : List (String × String) → List (String × String) → EngineState
  | [], storageAfter =>
    storageAfter.foldl (fun s kv => addEffect s { emptyEffect with
      type := "contractDataCreated", owner := some owner, key := some kv.1,
      value := some kv.2, durability := some "instance" } none) st
  | (key, val) :: restB, storageAfter =>
    match extractStorageKey key storageAfter with
    | none =>
      processInstanceLoop owner (addEffect st { emptyEffect with
        type := "contractDataRemoved", owner := some owner, key := some key,
        prevValue := some val, durability := some "instance" } none) restB storageAfter
    | some (newVal, storageAfter') =>
      if val == newVal then processInstanceLoop owner st restB storageAfter'
      else processInstanceLoop owner (addEffect st { emptyEffect with
        type := "contractDataUpdated", owner := some owner, key := some key,
        value := some newVal, prevValue := some val,
        durability := some "instance" } none) restB storageAfter'

/-- `EffectsAnalyzer.processInstanceDataChanges(before, after)`. -/
def processInstanceDataChanges (st : EngineState) (before after : ContractSnapshot) : EngineState :=
  processInstanceLoop (instanceOwner before after) st
    (before.storage.getD []) (after.storage.getD [])

end EffectsAnalyzer

/-- Truthiness of `storage?.length`. -/
def storageNonEmpty (o : Option (List (String × String))) : Bool :=
  match o with
  | some l => !l.isEmpty
  | none => false

namespace EffectsAnalyzer

/-- `EffectsAnalyzer.processContractChanges(change)`: rejects actions other
than created and updated; a created contract effect is skipped when any
already-emitted effect carries the same contract id; an updated contract
first diffs instance storage when either snapshot has storage and skips the
contractUpdated effect when the code hash is unchanged. -/
def processContractChanges (st : EngineState) (action : String) (before after : Option ContractSnapshot) : Except String EngineState :=
  if action ≠ "created" ∧ action ≠ "updated"
  then Except.error "UnexpectedTxMetaChange: contract"
  else
    match after with
    | none => Except.error "TypeError: missing after snapshot"
    | some a =>
      let effect := { emptyEffect with
        type := "contractCreated"
        contract := some a.contract
        kind := some a.kind
        wasmHash := a.hash }
      if action = "created" then
        if st.effects.any (fun e => e.contract == some a.contract) then Except.ok st
        else Except.ok (addEffect st effect none)
      else
        match before with
        | none => Except.error "TypeError: missing before snapshot"
        | some b =>
          let effect := { effect with type := "contractUpdated", prevWasmHash := b.hash }
          let st1 := if storageNonEmpty b.storage || storageNonEmpty a.storage
            then processInstanceDataChanges st b a else st
          if b.hash == a.hash then Except.ok st1
          else Except.ok (addEffect st1 effect none)

end EffectsAnalyzer

/-- The entity kinds carrying sponsorship effects.  Modelled from the spec:
the effect-types module is not under src/; section 4.3 lists the
sponsorship-bearing entity kinds as account, trustline, offer, data entry and
claimable balance (liquidity-pool sponsorship is intentionally not
surfaced). -/
def sponsorshipKinds : List String :=
  ["account", "trustline", "offer", "data", "claimableBalance"]

/-- Modelled from the spec: lookup in the effect-types module, a plain object
whose sponsorship entries are the `{kind}Sponsorship{Action}` keys for the
kinds of `sponsorshipKinds`; reading any other key yields undefined rather
than raising.  Effect-kind values are modelled by their key names. -/
def effectTypesLookup (key : String) : Option String :=
  if sponsorshipKinds.any (fun t =>
      key == t ++ "SponsorshipCreated" ||
      key == t ++ "SponsorshipUpdated" ||
      key == t ++ "SponsorshipRemoved")
  then some key else none

/-- `encodeSponsorshipEffectName(action, type)`: switches on the action,
raising on anything but created/updated/removed, then reads the effect-types
entry for the composed key (which may be undefined for kinds outside the
table). -/
def encodeSponsorshipEffectName (action type : String) : Except String (Option String) :=
  if action = "created" then Except.ok (effectTypesLookup (type ++ "SponsorshipCreated"))
  else if action = "updated" then Except.ok (effectTypesLookup (type ++ "SponsorshipUpdated"))
  else if action = "removed" then Except.ok (effectTypesLookup (type ++ "SponsorshipRemoved"))
  else Except.error "UnexpectedTxMetaChange: unknown action"

/-- Modelled from the spec: the external StrKey muxed-address decoder (the
key-encoding primitive is an external collaborator); it yields the payload
bytes of the muxed address, whose first 32 bytes are the embedded ed25519
key.  Bytes are modelled from the address characters. -/
def decodeMed25519PublicKey (address : String) : List Nat :=
  (address.data.drop 1).map (fun c => c.toNat)

/-- Modelled from the spec: the external StrKey ed25519 encoder; it produces
the canonical G-prefixed address string determined by the key bytes. -/
def encodeEd25519PublicKey (raw : List Nat) : String :=
  String.mk ('G' :: raw.map (fun b => Char.ofNat (65 + b % 26)))

/-- `normalizeAddress(address)`: G addresses pass through unchanged, M
addresses are decoded and re-encoded from the first 32 payload bytes, any
other prefix raises a type error. -/
def normalizeAddress (address : String) : Except String String :=
  match address.data with
  | [] => Except.error "TypeError: empty address"
  | c :: _ =>
    if c = 'G' then Except.ok address
    else if c ≠ 'M' then Except.error "Expected ED25519 or Muxed address"
    else Except.ok (encodeEd25519PublicKey ((decodeMed25519PublicKey address).take 32))

/-- C3 (amended): the engine primitives `EffectsAnalyzer.debit`/`credit` are
no-ops exactly when the amount string is "0" and otherwise append exactly one
accountDebited/accountCredited effect; the event interpreter's own
`EventsAnalyzer.debit`/`credit`, used by the diagnostic-event paths, append
exactly one effect unconditionally, with no zero-amount suppression. -/
theorem debit_credit_zero_suppression
    (st : EngineState) (amount asset source : String) (balance : Option String)
    (from_ to_ : String) (easset eamount : Option String) :
    (amount = "0" →
      EffectsAnalyzer.debit st amount asset source balance = st ∧
      EffectsAnalyzer.credit st amount asset source balance = st) ∧
    (amount ≠ "0" →
      (EffectsAnalyzer.debit st amount asset source balance).effects =
        st.effects ++ [{ emptyEffect with
          type := "accountDebited", source := some source, asset := some asset,
          amount := some amount, balance := balance }] ∧
      (EffectsAnalyzer.credit st amount asset source balance).effects =
        st.effects ++ [{ emptyEffect with
          type := "accountCredited", source := some source, asset := some asset,
          amount := some amount, balance := balance }]) ∧
    ((EventsAnalyzer.debit st from_ easset eamount).effects =
      st.effects ++ [{ emptyEffect with
        type := "accountDebited", source := some from_, asset := easset,
        amount := eamount }]) ∧
    ((EventsAnalyzer.credit st to_ easset eamount).effects =
      st.effects ++ [{ emptyEffect with
        type := "accountCredited", source := some to_, asset := easset,
        amount := eamount }]) := by
  refine ⟨fun h => ?_, fun h => ?_, ?_, ?_⟩
  · constructor <;> simp [EffectsAnalyzer.debit, EffectsAnalyzer.credit, h]
  · constructor <;>
      simp [EffectsAnalyzer.debit, EffectsAnalyzer.credit, EffectsAnalyzer.addEffect,
        resolveSource, h]
  · simp [EventsAnalyzer.debit, EffectsAnalyzer.addEffect, resolveSource]
  · simp [EventsAnalyzer.credit, EffectsAnalyzer.addEffect, resolveSource]

/-- C3 witness: concrete instantiation of the amended statement at a nonzero
and a zero amount. -/
theorem debit_credit_zero_suppression_witness :
    EffectsAnalyzer.debit { source := "GOP", effects := [], callStack := [] }
      "0" "XLM" "GACC" none = { source := "GOP", effects := [], callStack := [] } ∧
    (EffectsAnalyzer.credit { source := "GOP", effects := [], callStack := [] }
      "5" "XLM" "GACC" none).effects.length = 1 := by
  refine ⟨?_, ?_⟩
  · exact (debit_credit_zero_suppression
      { source := "GOP", effects := [], callStack := [] }
      "0" "XLM" "GACC" none "GF" "GT" none none).1 rfl |>.1
  · have h := (debit_credit_zero_suppression
      { source := "GOP", effects := [], callStack := [] }
      "5" "XLM" "GACC" none "GF" "GT" none none).2.1 (by decide)
    rw [h.2]
    decide

/-- C3 counterexample: on the event-interpreter path a call with amount "0"
appends an effect, so zero-amount suppression does not hold on all
debit/credit emission paths. -/
theorem events_debit_zero_appends :
    (EventsAnalyzer.debit { source := "GOP", effects := [], callStack := [] }
      "GFROM" (some "CASSET") (some "0")).effects.length = 1 := by
  decide

/-- Adding an effect never touches the call stack. -/
@[simp]
lemma addEffect_callStack (st : EngineState) (e : Effect) (p : Option Int) :
    (EffectsAnalyzer.addEffect st e p).callStack = st.callStack := by
  cases p <;> simp [EffectsAnalyzer.addEffect]

/-- Adding an effect never touches the engine source. -/
@[simp]
lemma addEffect_source (st : EngineState) (e : Effect) (p : Option Int) :
    (EffectsAnalyzer.addEffect st e p).source = st.source := by
  cases p <;> simp [EffectsAnalyzer.addEffect]

/-- Positional form of a plain push. -/
lemma addEffect_push (st : EngineState) (e : Effect) :
    EffectsAnalyzer.addEffect st e none =
      { st with effects := st.effects ++ [resolveSource st e] } := by
  simp [EffectsAnalyzer.addEffect]

/-- The event-interpreter debit never touches the call stack. -/
@[simp]
lemma eventsDebit_callStack (st : EngineState) (f : String) (a m : Option String) :
    (EventsAnalyzer.debit st f a m).callStack = st.callStack := by
  simp [EventsAnalyzer.debit]

/-- The event-interpreter credit never touches the call stack. -/
@[simp]
lemma eventsCredit_callStack (st : EngineState) (t : String) (a m : Option String) :
    (EventsAnalyzer.credit st t a m).callStack = st.callStack := by
  simp [EventsAnalyzer.credit]

/-- A digit character is the zero character only for the zero digit. -/
lemma digitChar_eq_zero (d : Nat) (h : digitChar d = '0') : d = 0 := by
  by_cases h10 : d < 10
  · interval_cases d <;> simp_all [digitChar]
  · exfalso
    unfold digitChar at h
    repeat rw [if_neg (by omega)] at h
    exact absurd h (by decide)

/-- The digit list of a nonzero number is non-empty whenever fuel remains. -/
lemma natDigitsAux_ne_nil (f n : Nat) (h : n ≠ 0) : natDigitsAux (f + 1) n ≠ [] := by
  simp [natDigitsAux, h]

/-- With adequate fuel, the digit list of a nonzero number is never the
single zero digit. -/
lemma natDigitsAux_ne_zero_list (fuel n : Nat) (h : n ≠ 0) (hf : n ≤ fuel) :
    natDigitsAux fuel n ≠ ['0'] := by
  match fuel with
  | 0 => omega
  | f + 1 =>
    intro hcontra
    rw [natDigitsAux, if_neg h] at hcontra
    have hx : natDigitsAux f (n / 10) = [] ∧ digitChar (n % 10) = '0' := by
      cases hxs : natDigitsAux f (n / 10) with
      | nil => simpa [hxs] using hcontra
      | cons x l =>
        rw [hxs] at hcontra
        have hlen := congrArg List.length hcontra
        simp at hlen
    obtain ⟨hnil, hzero⟩ := hx
    have hmod : n % 10 = 0 := digitChar_eq_zero _ hzero
    have hge : 10 ≤ n := by omega
    have hdiv : n / 10 ≠ 0 := by omega
    have hf1 : 1 ≤ f := by omega
    match f, hf1 with
    | f' + 1, _ => exact natDigitsAux_ne_nil f' (n / 10) hdiv hnil

/-- The decimal string of a nonzero natural number is not "0". -/
lemma natDecStr_ne_zero (n : Nat) (h : n ≠ 0) : natDecStr n ≠ "0" := by
  unfold natDecStr
  rw [if_neg h]
  intro hcontra
  have hdata : natDigitsAux n n = ['0'] := by
    have := congrArg String.data hcontra
    simpa using this
  exact natDigitsAux_ne_zero_list n n h (le_refl n) hdata

/-- The decimal string of a positive integer is not "0". -/
lemma intToDec_pos_ne_zero (i : Int) (h : 0 < i) : intToDec i ≠ "0" := by
  unfold intToDec
  rw [if_neg (by omega)]
  exact natDecStr_ne_zero i.toNat (by omega)

/-- The decimal string of zero. -/
lemma intToDec_zero : intToDec 0 = "0" := by decide


/-- A removal balance change (positive previous balance going to zero) emits
exactly the debit of that balance with resulting balance "0". -/
lemma processBalanceChange_to_zero (st : EngineState) (account asset : String)
    (b : Int) (hb : 0 < b) :
    EffectsAnalyzer.processBalanceChange st account asset b 0 =
      { st with effects := st.effects ++ [{ emptyEffect with
          type := "accountDebited", source := some account, asset := some asset,
          amount := some (intToDec b), balance := some "0" }] } := by
  unfold EffectsAnalyzer.processBalanceChange
  rw [if_pos (show (0 - b : Int) < 0 by omega)]
  unfold EffectsAnalyzer.debit
  rw [if_neg (show ¬(intToDec (-(0 - b)) = "0") by
    simpa using intToDec_pos_ne_zero b hb)]
  rw [addEffect_push]
  simp [resolveSource, intToDec_zero]

/-- C8: a removed trustline change with positive previous balance appends an
accountDebited effect for the whole balance with resulting balance "0",
immediately followed by the trustlineRemoved effect; with zero previous
balance only the trustlineRemoved effect is appended. -/
theorem trustline_removed_effects (st : EngineState) (b : TLSnapshot) :
    (0 < b.balance →
      EffectsAnalyzer.processTrustlineEffectsChanges st "removed" (some b) none =
        Except.ok { st with effects := st.effects ++
          [{ emptyEffect with
              type := "accountDebited", source := some b.account, asset := some b.asset,
              amount := some (intToDec b.balance), balance := some "0" },
           { emptyEffect with
              type := "trustlineRemoved", source := some b.account, asset := some b.asset,
              kind := some (if b.asset.data.contains '-' then "asset" else "poolShares"),
              flags := some b.flags, sponsor := b.sponsor }] }) ∧
    (b.balance = 0 →
      EffectsAnalyzer.processTrustlineEffectsChanges st "removed" (some b) none =
        Except.ok { st with effects := st.effects ++
          [{ emptyEffect with
              type := "trustlineRemoved", source := some b.account, asset := some b.asset,
              kind := some (if b.asset.data.contains '-' then "asset" else "poolShares"),
              flags := some b.flags, sponsor := b.sponsor }] }) := by
  constructor
  · intro hb
    simp only [EffectsAnalyzer.processTrustlineEffectsChanges, Option.orElse]
    simp [hb, processBalanceChange_to_zero st b.account b.asset b.balance hb,
      addEffect_push, resolveSource, List.append_assoc]
  · intro hb
    simp only [EffectsAnalyzer.processTrustlineEffectsChanges, Option.orElse]
    simp [hb, addEffect_push, resolveSource]

/-- C8 witness: the spec scenario, a removed trustline with previous balance
40 yielding a debit of "40" with balance "0" immediately followed by the
trustlineRemoved effect, and the zero-balance variant. -/
theorem trustline_removed_effects_witness :
    (EffectsAnalyzer.processTrustlineEffectsChanges
        { source := "GOP", effects := [], callStack := [] } "removed"
        (some { account := "GACC", asset := "USD-GISS-1", balance := 40,
                limit := "100", flags := 1, sponsor := none }) none =
      Except.ok { source := "GOP", callStack := [], effects :=
        [{ emptyEffect with
            type := "accountDebited", source := some "GACC", asset := some "USD-GISS-1",
            amount := some (intToDec 40), balance := some "0" },
         { emptyEffect with
            type := "trustlineRemoved", source := some "GACC", asset := some "USD-GISS-1",
            kind := some "asset", flags := some 1, sponsor := none }] }) ∧
    intToDec 40 = "40" ∧
    (EffectsAnalyzer.processTrustlineEffectsChanges
        { source := "GOP", effects := [], callStack := [] } "removed"
        (some { account := "GACC", asset := "USD-GISS-1", balance := 0,
                limit := "100", flags := 1, sponsor := none }) none =
      Except.ok { source := "GOP", callStack := [], effects :=
        [{ emptyEffect with
            type := "trustlineRemoved", source := some "GACC", asset := some "USD-GISS-1",
            kind := some "asset", flags := some 1, sponsor := none }] }) := by
  refine ⟨?_, by decide, ?_⟩
  · have h := (trustline_removed_effects
      { source := "GOP", effects := [], callStack := [] }
      { account := "GACC", asset := "USD-GISS-1", balance := 40,
        limit := "100", flags := 1, sponsor := none }).1 (by decide)
    simpa [show ("USD-GISS-1".data.contains '-') = true by decide] using h
  · have h := (trustline_removed_effects
      { source := "GOP", effects := [], callStack := [] }
      { account := "GACC", asset := "USD-GISS-1", balance := 0,
        limit := "100", flags := 1, sponsor := none }).2 (by decide)
    simpa [show ("USD-GISS-1".data.contains '-') = true by decide] using h

/-- C4: when the change list holds an updated liquidity-pool entry matching
the operation pool id, the deposit handler appends exactly one
liquidityPoolDeposited effect whose per-asset amounts are
`after.amount[i] - before.amount[i]` and whose shares are
`after.shares - before.shares`, and the withdraw handler the
liquidityPoolWithdrew effect with the reversed differences, all in exact
integer arithmetic; the third conjunct spells the per-index delta formula. -/
theorem liquidity_pool_deposit_withdraw_deltas :
    (∀ (st : EngineState) (id : String) (changes : List LPChange) (ch : LPChange)
       (b a : LPSnapshot),
      changes.find? (fun ch => ch.type == "liquidityPool" && ch.action == "updated" &&
        (match ch.after with
         | some a => a.pool == id
         | none => false)) = some ch →
      ch.before = some b → ch.after = some a →
      EffectsAnalyzer.liquidityPoolDeposit st id changes =
        Except.ok { st with effects := st.effects ++ [resolveSource st { emptyEffect with
          type := "liquidityPoolDeposited", pool := some id,
          assets := some (lpDeltaAssets a.asset a.amount b.amount),
          shares := some (intToDec (a.shares - b.shares)) }] }) ∧
    (∀ (st : EngineState) (id : String) (changes : List LPChange) (ch : LPChange)
       (b a : LPSnapshot),
      changes.find? (fun ch => ch.type == "liquidityPool" && ch.action == "updated" &&
        (match ch.before with
         | some b => b.pool == id
         | none => false)) = some ch →
      ch.before = some b → ch.after = some a →
      EffectsAnalyzer.liquidityPoolWithdraw st id changes =
        Except.ok { st with effects := st.effects ++ [resolveSource st { emptyEffect with
          type := "liquidityPoolWithdrew", pool := some id,
          assets := some (lpDeltaAssets b.asset b.amount a.amount),
          shares := some (intToDec (b.shares - a.shares)) }] }) ∧
    (∀ (assets : List String) (fromAm toAm : List Int) (i : Nat), i < assets.length →
      (lpDeltaAssets assets fromAm toAm).getD i ("", "") =
        (assets.getD i "", intToDec (fromAm.getD i 0 - toAm.getD i 0))) := by
  refine ⟨?_, ?_, ?_⟩
  · intro st id changes ch b a hfind hb ha
    unfold EffectsAnalyzer.liquidityPoolDeposit
    rw [hfind]
    simp [hb, ha, addEffect_push]
  · intro st id changes ch b a hfind hb ha
    unfold EffectsAnalyzer.liquidityPoolWithdraw
    rw [hfind]
    simp [hb, ha, addEffect_push]
  · intro assets fromAm toAm i hi
    unfold lpDeltaAssets
    rw [List.getD_eq_getElem?_getD, List.getElem?_map, List.getElem?_range hi]
    simp

/-- C4 witness: the spec scenario, a deposit with before amounts [100, 200]
and shares 1000 and after amounts [150, 260] and shares 1100 yields assets
[(A, "50"), (B, "60")] and shares "100", plus the mirrored withdraw. -/
theorem liquidity_pool_deposit_witness :
    (EffectsAnalyzer.liquidityPoolDeposit
        { source := "GOP", effects := [], callStack := [] } "P"
        [{ type := "liquidityPool", action := "updated",
           before := some { pool := "P", asset := ["A", "B"], amount := [100, 200],
                            shares := 1000, accounts := 1, sponsor := none },
           after := some { pool := "P", asset := ["A", "B"], amount := [150, 260],
                           shares := 1100, accounts := 1, sponsor := none } }] =
      Except.ok { source := "GOP", callStack := [], effects :=
        [{ emptyEffect with
            type := "liquidityPoolDeposited", source := some "GOP", pool := some "P",
            assets := some [("A", "50"), ("B", "60")], shares := some "100" }] }) ∧
    (EffectsAnalyzer.liquidityPoolWithdraw
        { source := "GOP", effects := [], callStack := [] } "P"
        [{ type := "liquidityPool", action := "updated",
           before := some { pool := "P", asset := ["A", "B"], amount := [150, 260],
                            shares := 1100, accounts := 1, sponsor := none },
           after := some { pool := "P", asset := ["A", "B"], amount := [100, 200],
                           shares := 1000, accounts := 1, sponsor := none } }] =
      Except.ok { source := "GOP", callStack := [], effects :=
        [{ emptyEffect with
            type := "liquidityPoolWithdrew", source := some "GOP", pool := some "P",
            assets := some [("A", "50"), ("B", "60")], shares := some "100" }] }) := by
  constructor
  · have h := liquidity_pool_deposit_withdraw_deltas.1
      { source := "GOP", effects := [], callStack := [] } "P"
      [{ type := "liquidityPool", action := "updated",
         before := some { pool := "P", asset := ["A", "B"], amount := [100, 200],
                          shares := 1000, accounts := 1, sponsor := none },
         after := some { pool := "P", asset := ["A", "B"], amount := [150, 260],
                         shares := 1100, accounts := 1, sponsor := none } }]
      { type := "liquidityPool", action := "updated",
        before := some { pool := "P", asset := ["A", "B"], amount := [100, 200],
                         shares := 1000, accounts := 1, sponsor := none },
        after := some { pool := "P", asset := ["A", "B"], amount := [150, 260],
                        shares := 1100, accounts := 1, sponsor := none } }
      { pool := "P", asset := ["A", "B"], amount := [100, 200],
        shares := 1000, accounts := 1, sponsor := none }
      { pool := "P", asset := ["A", "B"], amount := [150, 260],
        shares := 1100, accounts := 1, sponsor := none }
      (by decide) rfl rfl
    rw [h]
    decide
  · have h := liquidity_pool_deposit_withdraw_deltas.2.1
      { source := "GOP", effects := [], callStack := [] } "P"
      [{ type := "liquidityPool", action := "updated",
         before := some { pool := "P", asset := ["A", "B"], amount := [150, 260],
                          shares := 1100, accounts := 1, sponsor := none },
         after := some { pool := "P", asset := ["A", "B"], amount := [100, 200],
                         shares := 1000, accounts := 1, sponsor := none } }]
      { type := "liquidityPool", action := "updated",
        before := some { pool := "P", asset := ["A", "B"], amount := [150, 260],
                         shares := 1100, accounts := 1, sponsor := none },
        after := some { pool := "P", asset := ["A", "B"], amount := [100, 200],
                        shares := 1000, accounts := 1, sponsor := none } }
      { pool := "P", asset := ["A", "B"], amount := [150, 260],
        shares := 1100, accounts := 1, sponsor := none }
      { pool := "P", asset := ["A", "B"], amount := [100, 200],
        shares := 1000, accounts := 1, sponsor := none }
      (by decide) rfl rfl
    rw [h]
    decide

/-- C10: when the position search finds no existing effect referencing the
pool id (for a created liquidity pool) or the asset (for an auto-lookup
mint), `findIndex` yields -1 and `addEffect` inserts the new effect at
position 0, in front of all previously appended effects, instead of
appending it. -/
theorem front_insertion_on_no_match (st : EngineState) (before : Option LPSnapshot)
    (a : LPSnapshot) (asset amount : String) :
    (st.effects.findIdx? (fun e => e.pool == some a.pool || e.asset == some a.pool) = none →
      EffectsAnalyzer.processLiquidityPoolChanges st "created" before (some a) =
        Except.ok { st with effects := resolveSource st { emptyEffect with
          type := "liquidityPoolCreated", pool := some a.pool, sponsor := a.sponsor,
          reserves := some (a.asset.map (fun x => (x, "0"))),
          shares := some "0", accounts := some 1 } :: st.effects }) ∧
    (st.effects.findIdx? (fun e => e.asset == some asset ||
        (match e.assets with
         | some l => l.any (fun x => x.1 == asset)
         | none => false)) = none →
      EffectsAnalyzer.mint st asset amount true =
        { st with effects := resolveSource st { emptyEffect with
          type := "assetMinted", asset := some asset, amount := some amount } :: st.effects }) := by
  constructor
  · intro hfind
    simp only [EffectsAnalyzer.processLiquidityPoolChanges, Option.orElse]
    simp [jsFindIndex, hfind, EffectsAnalyzer.addEffect, jsSpliceInsert]
  · intro hfind
    unfold EffectsAnalyzer.mint
    simp [jsFindIndex, hfind, EffectsAnalyzer.addEffect, jsSpliceInsert]

/-- C10 witness: with one unrelated already-appended effect, the created-pool
effect and the auto-lookup minted effect land at the front of the list. -/
theorem front_insertion_on_no_match_witness :
    (EffectsAnalyzer.processLiquidityPoolChanges
        { source := "GOP", callStack := [],
          effects := [{ emptyEffect with type := "trade", source := some "GOP" }] }
        "created" none
        (some { pool := "P", asset := ["A", "B"], amount := [0, 0], shares := 0,
                accounts := 1, sponsor := none }) =
      Except.ok { source := "GOP", callStack := [], effects :=
        [{ emptyEffect with
            type := "liquidityPoolCreated", source := some "GOP", pool := some "P",
            reserves := some [("A", "0"), ("B", "0")], shares := some "0",
            accounts := some 1 },
         { emptyEffect with type := "trade", source := some "GOP" }] }) ∧
    (EffectsAnalyzer.mint
        { source := "GOP", callStack := [],
          effects := [{ emptyEffect with type := "trade", source := some "GOP" }] }
        "TOK" "7" true =
      { source := "GOP", callStack := [], effects :=
        [{ emptyEffect with
            type := "assetMinted", source := some "GOP",
            asset := some "TOK", amount := some "7" },
         { emptyEffect with type := "trade", source := some "GOP" }] }) := by
  constructor
  · have h := (front_insertion_on_no_match
      { source := "GOP", callStack := [],
        effects := [{ emptyEffect with type := "trade", source := some "GOP" }] }
      none
      { pool := "P", asset := ["A", "B"], amount := [0, 0], shares := 0,
        accounts := 1, sponsor := none }
      "TOK" "7").1 (by decide)
    rw [h]
    decide
  · have h := (front_insertion_on_no_match
      { source := "GOP", callStack := [],
        effects := [{ emptyEffect with type := "trade", source := some "GOP" }] }
      none
      { pool := "P", asset := ["A", "B"], amount := [0, 0], shares := 0,
        accounts := 1, sponsor := none }
      "TOK" "7").2 (by decide)
    rw [h]
    decide

/-- C5 (amended): a created contract change appends the contractCreated
effect exactly when no previously appended effect carries the same contract
id in its contract field; any prior effect referencing that id — whether or
not it recorded a creation — suppresses the new effect. -/
theorem contract_created_suppression (st : EngineState) (before : Option ContractSnapshot)
    (a : ContractSnapshot) :
    (st.effects.any (fun e => e.contract == some a.contract) = true →
      EffectsAnalyzer.processContractChanges st "created" before (some a) = Except.ok st) ∧
    (st.effects.any (fun e => e.contract == some a.contract) = false →
      EffectsAnalyzer.processContractChanges st "created" before (some a) =
        Except.ok { st with effects := st.effects ++ [resolveSource st { emptyEffect with
          type := "contractCreated", contract := some a.contract, kind := some a.kind,
          wasmHash := a.hash }] }) := by
  constructor
  · intro hany
    simp only [EffectsAnalyzer.processContractChanges]
    simp [hany]
  · intro hany
    simp only [EffectsAnalyzer.processContractChanges]
    simp [hany, addEffect_push]

/-- C5 witness: with no previously appended effect for the contract id, the
contractCreated effect is appended. -/
theorem contract_created_suppression_witness :
    EffectsAnalyzer.processContractChanges
      { source := "GOP", effects := [], callStack := [] } "created" none
      (some { contract := "CAAAAAAAAAAAAAAAAAAAAAAAAAAAAAAAAAAAAAAAAAAAAAAAAAAAAAAA",
              kind := "wasm", hash := some "abcd", storage := none }) =
      Except.ok { source := "GOP", callStack := [], effects :=
        [{ emptyEffect with
            type := "contractCreated", source := some "GOP",
            contract := some "CAAAAAAAAAAAAAAAAAAAAAAAAAAAAAAAAAAAAAAAAAAAAAAAAAAAAAAA",
            kind := some "wasm", wasmHash := some "abcd" }] } := by
  have h := (contract_created_suppression
    { source := "GOP", effects := [], callStack := [] } none
    { contract := "CAAAAAAAAAAAAAAAAAAAAAAAAAAAAAAAAAAAAAAAAAAAAAAAAAAAAAAA",
      kind := "wasm", hash := some "abcd", storage := none }).2 (by decide)
  rw [h]
  decide

/-- C5 counterexample: a prior effect that merely references the contract id
(a contractInvoked effect, recording no creation) suppresses the
contractCreated effect, so suppression is not limited to prior effects that
recorded the creation of the same contract id. -/
theorem contract_created_suppressed_by_invocation :
    EffectsAnalyzer.processContractChanges
      { source := "GOP", callStack := [], effects :=
        [{ emptyEffect with
            type := "contractInvoked", source := some "GOP",
            contract := some "CAAAAAAAAAAAAAAAAAAAAAAAAAAAAAAAAAAAAAAAAAAAAAAAAAAAAAAA",
            function := some "hello" }] }
      "created" none
      (some { contract := "CAAAAAAAAAAAAAAAAAAAAAAAAAAAAAAAAAAAAAAAAAAAAAAAAAAAAAAA",
              kind := "wasm", hash := some "abcd", storage := none }) =
      Except.ok { source := "GOP", callStack := [], effects :=
        [{ emptyEffect with
            type := "contractInvoked", source := some "GOP",
            contract := some "CAAAAAAAAAAAAAAAAAAAAAAAAAAAAAAAAAAAAAAAAAAAAAAAAAAAAAAA",
            function := some "hello" }] } := by decide

/-- C2 (amended): the sponsorship namer is a pure function of (action,
entity kind); an action outside created/updated/removed raises the fatal
change-record error, a valid action always yields the effect-types table
entry for the composed key (some table name for every kind of the table),
while a valid action with a kind outside the table yields an undefined
effect kind without raising. -/
theorem sponsorship_effect_name (action type : String) :
    ((action = "created" →
        encodeSponsorshipEffectName action type =
          Except.ok (effectTypesLookup (type ++ "SponsorshipCreated"))) ∧
     (action = "updated" →
        encodeSponsorshipEffectName action type =
          Except.ok (effectTypesLookup (type ++ "SponsorshipUpdated"))) ∧
     (action = "removed" →
        encodeSponsorshipEffectName action type =
          Except.ok (effectTypesLookup (type ++ "SponsorshipRemoved")))) ∧
    (type ∈ sponsorshipKinds →
      (action = "created" ∨ action = "updated" ∨ action = "removed") →
      ∃ name, encodeSponsorshipEffectName action type = Except.ok (some name)) ∧
    (action ≠ "created" → action ≠ "updated" → action ≠ "removed" →
      encodeSponsorshipEffectName action type =
        Except.error "UnexpectedTxMetaChange: unknown action") := by
  refine ⟨⟨fun h => ?_, fun h => ?_, fun h => ?_⟩, fun hmem hval => ?_, fun h1 h2 h3 => ?_⟩
  · simp [encodeSponsorshipEffectName, h]
  · simp [encodeSponsorshipEffectName, h]
  · simp [encodeSponsorshipEffectName, h]
  · simp only [sponsorshipKinds, List.mem_cons, List.mem_singleton] at hmem
    rcases hmem with h | h | h | h | h | h <;>
      rcases hval with h' | h' | h' <;> subst h' <;>
        first
        | (subst h; exact ⟨_, rfl⟩)
        | simp_all
  · simp [encodeSponsorshipEffectName, h1, h2, h3]

/-- C2 witness: concrete instantiations, a mapped pair yielding a table
entry, and the fatal error for an unknown action. -/
theorem sponsorship_effect_name_witness :
    encodeSponsorshipEffectName "created" "account" =
      Except.ok (some "accountSponsorshipCreated") ∧
    encodeSponsorshipEffectName "restored" "account" =
      Except.error "UnexpectedTxMetaChange: unknown action" := by
  constructor
  · have h := (sponsorship_effect_name "created" "account").1.1 rfl
    rw [h]
    decide
  · exact (sponsorship_effect_name "restored" "account").2.2
      (by decide) (by decide) (by decide)

/-- C2 counterexample: a (valid action, unmapped entity kind) pair does not
raise; the namer returns an undefined effect kind instead, so not every
combination outside the table is a fatal error. -/
theorem sponsorship_effect_name_unmapped_kind :
    encodeSponsorshipEffectName "created" "liquidityPool" = Except.ok none := by decide

/-- Normalization of an encoded canonical address is the identity: the
encoder output starts with G. -/
lemma normalizeAddress_encode (raw : List Nat) :
    normalizeAddress (encodeEd25519PublicKey raw) =
      Except.ok (encodeEd25519PublicKey raw) := by
  unfold normalizeAddress encodeEd25519PublicKey
  simp

/-- C9: normalizing an address starting with G returns it unchanged;
normalizing a multiplexed M address is idempotent, normalizing the result
again yields the same canonical address; any other leading character raises
the type error. -/
theorem normalize_address_idempotent (a : String) (c : Char) (rest : List Char)
    (h : a.data = c :: rest) :
    (c = 'G' → normalizeAddress a = Except.ok a) ∧
    (c = 'M' → ∃ r, normalizeAddress a = Except.ok r ∧
      normalizeAddress r = Except.ok r) ∧
    (c ≠ 'G' → c ≠ 'M' →
      normalizeAddress a = Except.error "Expected ED25519 or Muxed address") := by
  refine ⟨fun hc => ?_, fun hc => ?_, fun hg hm => ?_⟩
  · unfold normalizeAddress
    rw [h]
    simp [hc]
  · refine ⟨encodeEd25519PublicKey ((decodeMed25519PublicKey a).take 32), ?_, ?_⟩
    · unfold normalizeAddress
      rw [h]
      simp [hc]
    · exact normalizeAddress_encode ((decodeMed25519PublicKey a).take 32)
  · unfold normalizeAddress
    rw [h]
    simp [hg, hm]

/-- C9 witness: a canonical G address passes through, normalizing a muxed M
address twice equals normalizing it once, and an X-prefixed address raises. -/
theorem normalize_address_idempotent_witness :
    normalizeAddress "GABC" = Except.ok "GABC" ∧
    (∃ r, normalizeAddress "MABC" = Except.ok r ∧ normalizeAddress r = Except.ok r) ∧
    normalizeAddress "XABC" = Except.error "Expected ED25519 or Muxed address" := by
  refine ⟨?_, ?_, ?_⟩
  · exact (normalize_address_idempotent "GABC" 'G' ['A', 'B', 'C'] (by decide)).1 rfl
  · exact (normalize_address_idempotent "MABC" 'M' ['A', 'B', 'C'] (by decide)).2.1 rfl
  · exact (normalize_address_idempotent "XABC" 'X' ['A', 'B', 'C'] (by decide)).2.2
      (by decide) (by decide)

/-- C7: every diagnostic event whose first topic parses to clawback raises:
the non-standard-event error when the topic shape fails validation, and
otherwise the unconditional not-implemented error; no state is returned, so
no debit, credit or clawback effect is ever appended. -/
theorem clawback_always_raises (st : EngineState) (t0 : Topic) (rest : List Topic)
    (data : EventData) (ty : Nat) (cid : Option String) (h0 : t0.value = "clawback") :
    EventsAnalyzer.processDiagnosticEvent st (t0 :: rest) data ty cid =
      Except.error (if matchEventTopicsShape (t0 :: rest) ["address", "address", "str?"]
        then "Check state modifications to confirm the clawback destination"
        else "Non-standard event") := by
  unfold EventsAnalyzer.processDiagnosticEvent EventsAnalyzer.procClawback
  by_cases hm : matchEventTopicsShape (t0 :: rest) ["address", "address", "str?"] <;>
    simp [h0, hm]

/-- C7 witness: a well-shaped clawback event raises the not-implemented
error, an ill-shaped one the non-standard-event error. -/
theorem clawback_always_raises_witness :
    EventsAnalyzer.processDiagnosticEvent
      { source := "GOP", effects := [], callStack := [] }
      [{ arm := "sym", value := "clawback" }, { arm := "address", value := "GADM" },
       { arm := "address", value := "GFROM" }]
      (EventData.value "5" "AAAA") 2 (some "C1") =
      Except.error "Check state modifications to confirm the clawback destination" ∧
    EventsAnalyzer.processDiagnosticEvent
      { source := "GOP", effects := [], callStack := [] }
      [{ arm := "sym", value := "clawback" }, { arm := "i128", value := "5" }]
      (EventData.value "5" "AAAA") 2 (some "C1") =
      Except.error "Non-standard event" := by
  constructor
  · have h := clawback_always_raises
      { source := "GOP", effects := [], callStack := [] }
      { arm := "sym", value := "clawback" }
      [{ arm := "address", value := "GADM" }, { arm := "address", value := "GFROM" }]
      (EventData.value "5" "AAAA") 2 (some "C1") rfl
    rw [h]
    decide
  · have h := clawback_always_raises
      { source := "GOP", effects := [], callStack := [] }
      { arm := "sym", value := "clawback" }
      [{ arm := "i128", value := "5" }]
      (EventData.value "5" "AAAA") 2 (some "C1") rfl
    rw [h]
    decide

/-- C1 (amended): the transfer interpreter classifies on whether the asset
identifier (the event contract id) is a contract address: for a
contract-addressed asset id it emits a debit only when from is itself
contract-addressed and a credit only when to is contract-addressed, while
for an asset id that is not a contract address it always emits both; in
particular a transfer of a contract-addressed asset between two non-contract
addresses emits no debit and no credit. -/
theorem transfer_event_classification (st : EngineState) (t0 t1 t2 : Topic)
    (rest : List Topic) (data : EventData) (ty : Nat) (asset : String)
    (h0 : t0.value = "transfer") :
    EventsAnalyzer.processDiagnosticEvent st (t0 :: t1 :: t2 :: rest) data ty (some asset) =
      Except.ok { st with effects := st.effects ++
        (if !isContractAddress asset || isContractAddress t1.value
         then [{ emptyEffect with
                 type := "accountDebited", source := some t1.value,
                 asset := some asset, amount := eventDataParsed data }] else []) ++
        (if !isContractAddress asset || isContractAddress t2.value
         then [{ emptyEffect with
                 type := "accountCredited", source := some t2.value,
                 asset := some asset, amount := eventDataParsed data }] else []) } := by
  unfold EventsAnalyzer.processDiagnosticEvent EventsAnalyzer.procTransfer
  by_cases hd : !isContractAddress asset || isContractAddress t1.value <;>
    by_cases hc : !isContractAddress asset || isContractAddress t2.value <;>
      simp [h0, hd, hc, EventsAnalyzer.debit, EventsAnalyzer.credit, addEffect_push,
        resolveSource, List.append_assoc]

/-- C1 witness: a transfer of a non-contract-addressed asset id between two
ledger addresses emits both the debit and the credit. -/
theorem transfer_event_classification_witness :
    EventsAnalyzer.processDiagnosticEvent
      { source := "GOP", effects := [], callStack := [] }
      [{ arm := "sym", value := "transfer" }, { arm := "address", value := "GFROM" },
       { arm := "address", value := "GTO" }]
      (EventData.value "5" "AAAA") 2 (some "XLM") =
      Except.ok { source := "GOP", callStack := [], effects :=
        [{ emptyEffect with
            type := "accountDebited", source := some "GFROM",
            asset := some "XLM", amount := some "5" },
         { emptyEffect with
            type := "accountCredited", source := some "GTO",
            asset := some "XLM", amount := some "5" }] } := by
  have h := transfer_event_classification
    { source := "GOP", effects := [], callStack := [] }
    { arm := "sym", value := "transfer" }
    { arm := "address", value := "GFROM" }
    { arm := "address", value := "GTO" }
    [] (EventData.value "5" "AAAA") 2 "XLM" rfl
  rw [h]
  decide

/-- C1 counterexample: a transfer event whose asset identifier is a contract
address (contract-native classification per the claim) and whose from and to
are both non-contract addresses appends neither a debit nor a credit, so a
contract-native asset transfer does not always emit both. -/
theorem transfer_contract_asset_no_effects :
    EventsAnalyzer.processDiagnosticEvent
      { source := "GOP", effects := [], callStack := [] }
      [{ arm := "sym", value := "transfer" }, { arm := "address", value := "GFROM" },
       { arm := "address", value := "GTO" }]
      (EventData.value "5" "AAAA") 2
      (some "CAAAAAAAAAAAAAAAAAAAAAAAAAAAAAAAAAAAAAAAAAAAAAAAAAAAAAAA") =
      Except.ok { source := "GOP", effects := [], callStack := [] } := by decide

/-- The fn_call branch on success pushes the index of the appended effect and
appends exactly the invocation effect. -/
lemma procFnCall_ok (st : EngineState) (rest : List Topic) (data : EventData)
    (st' : EngineState) (h : EventsAnalyzer.procFnCall st rest data = Except.ok st') :
    st'.callStack = st.effects.length :: st.callStack ∧
    ∃ t1 t2 r, rest = t1 :: t2 :: r ∧
      st'.effects = st.effects ++ [resolveSource st { emptyEffect with
        type := "contractInvoked", contract := some t1.value, function := some t2.value,
        args := eventDataParsed data,
        depth := if st.callStack.length = 0 then none else some st.callStack.length }] := by
  match rest with
  | [] => simp [EventsAnalyzer.procFnCall] at h
  | [t1] => simp [EventsAnalyzer.procFnCall] at h
  | t1 :: t2 :: r =>
    simp only [EventsAnalyzer.procFnCall, Except.ok.injEq] at h
    subst h
    exact ⟨rfl, t1, t2, r, rfl, rfl⟩

/-- The fn_return branch on success pops the top frame for a diagnostic
event, is the identity otherwise, and never changes the number of effects. -/
lemma procFnReturn_ok (st : EngineState) (data : EventData) (ty : Nat)
    (st' : EngineState) (h : EventsAnalyzer.procFnReturn st data ty = Except.ok st') :
    st'.callStack = (if ty = 2 then st.callStack.tail else st.callStack) ∧
    st'.effects.length = st.effects.length := by
  unfold EventsAnalyzer.procFnReturn at h
  by_cases hty : ty = 2
  · rw [if_neg (by simp [hty])] at h
    rcases hcs : st.callStack with _ | ⟨idx, restS⟩ <;>
      rcases hdata : data with _ | ⟨p, raw⟩ <;>
        rw [hcs, hdata] at h <;> simp at h <;> (try subst h) <;>
          simp_all [List.length_set]
  · rw [if_pos hty] at h
    simp only [Except.ok.injEq] at h
    subst h
    simp [hty]

/-- The transfer branch never touches the call stack. -/
lemma procTransfer_callStack (st : EngineState) (rest : List Topic) (data : EventData)
    (cid : Option String) (st' : EngineState)
    (h : EventsAnalyzer.procTransfer st rest data cid = Except.ok st') :
    st'.callStack = st.callStack := by
  match rest with
  | [] => simp [EventsAnalyzer.procTransfer] at h
  | [t1] => simp [EventsAnalyzer.procTransfer] at h
  | t1 :: t2 :: r =>
    cases cid with
    | none => simp [EventsAnalyzer.procTransfer] at h
    | some asset =>
      simp only [EventsAnalyzer.procTransfer, Except.ok.injEq] at h
      subst h
      split <;> split <;> simp

/-- The mint branch never touches the call stack. -/
lemma procMint_callStack (st : EngineState) (topics : List Topic) (data : EventData)
    (cid : Option String) (st' : EngineState)
    (h : EventsAnalyzer.procMint st topics data cid = Except.ok st') :
    st'.callStack = st.callStack := by
  unfold EventsAnalyzer.procMint at h
  split at h
  · exact absurd h (by simp)
  · match topics with
    | [] => simp at h
    | [t] => simp at h
    | t :: t1 :: r =>
      simp only [Except.ok.injEq] at h
      subst h
      simp [EventsAnalyzer.credit]

/-- The burn branch never touches the call stack. -/
lemma procBurn_callStack (st : EngineState) (topics : List Topic) (data : EventData)
    (cid : Option String) (st' : EngineState)
    (h : EventsAnalyzer.procBurn st topics data cid = Except.ok st') :
    st'.callStack = st.callStack := by
  unfold EventsAnalyzer.procBurn at h
  split at h
  · exact absurd h (by simp)
  · match topics with
    | [] => simp at h
    | [t] => simp at h
    | t :: t1 :: r =>
      simp only [Except.ok.injEq] at h
      subst h
      simp [EventsAnalyzer.debit]

/-- The clawback branch never succeeds. -/
lemma procClawback_not_ok (st : EngineState) (topics : List Topic) (st' : EngineState) :
    EventsAnalyzer.procClawback st topics ≠ Except.ok st' := by
  unfold EventsAnalyzer.procClawback
  split <;> simp

/-- Dispatch of `processDiagnosticEvent` on a non-empty topic list. -/
lemma processDiagnosticEvent_cons (st : EngineState) (t0 : Topic) (rest : List Topic)
    (data : EventData) (ty : Nat) (cid : Option String) :
    EventsAnalyzer.processDiagnosticEvent st (t0 :: rest) data ty cid =
      (if t0.value = "fn_call" then EventsAnalyzer.procFnCall st rest data
       else if t0.value = "fn_return" then EventsAnalyzer.procFnReturn st data ty
       else if t0.value = "transfer" then EventsAnalyzer.procTransfer st rest data cid
       else if t0.value = "mint" then EventsAnalyzer.procMint st (t0 :: rest) data cid
       else if t0.value = "burn" then EventsAnalyzer.procBurn st (t0 :: rest) data cid
       else if t0.value = "clawback" then EventsAnalyzer.procClawback st (t0 :: rest)
       else Except.ok st) := rfl

/-- Call-stack length of one successfully processed diagnostic event follows
`stackDelta`. -/
lemma processDiagnosticEvent_stack (st : EngineState) (ev : DiagEvent) (st' : EngineState)
    (h : EventsAnalyzer.processDiagnosticEvent st ev.topics ev.data ev.type ev.contractId =
      Except.ok st') :
    st'.callStack.length = stackDelta ev st.callStack.length := by
  rcases hevt : ev.topics with _ | ⟨t0, rest⟩
  · rw [hevt] at h
    simp [EventsAnalyzer.processDiagnosticEvent] at h
  · rw [hevt] at h
    have hf : isFnCallEvent ev = (t0.value == "fn_call") := by
      simp [isFnCallEvent, hevt]
    have hr : isDiagFnReturnEvent ev = ((t0.value == "fn_return") && ev.type == 2) := by
      simp [isDiagFnReturnEvent, hevt]
    rw [processDiagnosticEvent_cons] at h
    by_cases h0 : t0.value = "fn_call"
    · rw [if_pos h0] at h
      have hc := (procFnCall_ok _ _ _ _ h).1
      simp [stackDelta, hf, h0, hc]
    · rw [if_neg h0] at h
      by_cases h1 : t0.value = "fn_return"
      · rw [if_pos h1] at h
        have hc := (procFnReturn_ok _ _ _ _ h).1
        by_cases hty : ev.type = 2
        · simp [stackDelta, hf, hr, h0, h1, hty, hc, List.length_tail]
        · simp [stackDelta, hf, hr, h0, h1, hty, hc]
      · rw [if_neg h1] at h
        have hns : stackDelta ev st.callStack.length = st.callStack.length := by
          simp [stackDelta, hf, hr, h0, h1]
        rw [hns]
        by_cases h2 : t0.value = "transfer"
        · rw [if_pos h2] at h
          rw [procTransfer_callStack _ _ _ _ _ h]
        · rw [if_neg h2] at h
          by_cases h3 : t0.value = "mint"
          · rw [if_pos h3] at h
            rw [procMint_callStack _ _ _ _ _ h]
          · rw [if_neg h3] at h
            by_cases h4 : t0.value = "burn"
            · rw [if_pos h4] at h
              rw [procBurn_callStack _ _ _ _ _ h]
            · rw [if_neg h4] at h
              by_cases h5 : t0.value = "clawback"
              · rw [if_pos h5] at h
                exact absurd h (procClawback_not_ok _ _ _)
              · rw [if_neg h5] at h
                simp only [Except.ok.injEq] at h
                subst h
                rfl

/-- The call-stack length after a successful diagnostic-event pass is the
fold of `stackDelta` over the event list. -/
lemma analyzeDiagnosticEvents_stack : ∀ (evs : List DiagEvent) (st st' : EngineState),
    EventsAnalyzer.analyzeDiagnosticEvents st evs = Except.ok st' →
    st'.callStack.length = evs.foldl (fun n ev => stackDelta ev n) st.callStack.length := by
  intro evs
  induction evs with
  | nil =>
    intro st st' h
    simp [EventsAnalyzer.analyzeDiagnosticEvents] at h
    simp [h]
  | cons ev rest ih =>
    intro st st' h
    unfold EventsAnalyzer.analyzeDiagnosticEvents at h
    split at h
    · exact absurd h (by simp)
    · cases hpe : EventsAnalyzer.processDiagnosticEvent st ev.topics ev.data ev.type
        ev.contractId with
      | error m =>
        rw [hpe] at h
        exact absurd h (by simp)
      | ok st1 =>
        rw [hpe] at h
        rw [List.foldl_cons, ← processDiagnosticEvent_stack st ev st1 hpe]
        exact ih st1 st' h

/-- Head decomposition of the fn_call count. -/
lemma countFnCalls_cons (ev : DiagEvent) (l : List DiagEvent) :
    countFnCalls (ev :: l) = (if isFnCallEvent ev then 1 else 0) + countFnCalls l := by
  simp only [countFnCalls, List.filter_cons]
  split <;> simp [Nat.add_comm]

/-- Head decomposition of the diagnostic fn_return count. -/
lemma countDiagFnReturns_cons (ev : DiagEvent) (l : List DiagEvent) :
    countDiagFnReturns (ev :: l) =
      (if isDiagFnReturnEvent ev then 1 else 0) + countDiagFnReturns l := by
  simp only [countDiagFnReturns, List.filter_cons]
  split <;> simp [Nat.add_comm]

/-- An event cannot be both an fn_call and a diagnostic fn_return. -/
lemma not_call_and_return (ev : DiagEvent) (h : isFnCallEvent ev = true) :
    isDiagFnReturnEvent ev = false := by
  unfold isFnCallEvent at h
  unfold isDiagFnReturnEvent
  rcases hevt : ev.topics with _ | ⟨t, r⟩
  · rw [hevt] at h
    simp at h
  · rw [hevt] at h
    simp at h
    simp [h]

/-- Folding `stackDelta` from `n` over a list whose every prefix has no more
diagnostic fn_returns than `n` plus its fn_calls computes the exact balance. -/
lemma foldl_stackDelta : ∀ (evs : List DiagEvent) (n : Nat),
    (∀ k, countDiagFnReturns (evs.take k) ≤ n + countFnCalls (evs.take k)) →
    evs.foldl (fun m ev => stackDelta ev m) n =
      n + countFnCalls evs - countDiagFnReturns evs := by
  intro evs
  induction evs with
  | nil =>
    intro n _
    simp [countFnCalls, countDiagFnReturns]
  | cons ev rest ih =>
    intro n hpre
    have h1 := hpre 1
    rw [List.take_succ_cons, List.take_zero] at h1
    rw [countFnCalls_cons, countDiagFnReturns_cons] at h1
    simp [countFnCalls, countDiagFnReturns] at h1
    rw [List.foldl_cons, countFnCalls_cons, countDiagFnReturns_cons]
    by_cases hc : isFnCallEvent ev
    · have hnr := not_call_and_return ev hc
      have hstep : stackDelta ev n = n + 1 := by simp [stackDelta, hc]
      rw [hstep, ih (n + 1) ?_]
      · simp [hc, hnr]
        omega
      · intro k
        have := hpre (k + 1)
        rw [List.take_succ_cons, countFnCalls_cons, countDiagFnReturns_cons] at this
        simp [hc, hnr] at this
        omega
    · by_cases hr : isDiagFnReturnEvent ev
      · have hn1 : 1 ≤ n := by
          simp [hc, hr] at h1
          omega
        have hstep : stackDelta ev n = n - 1 := by simp [stackDelta, hc, hr]
        rw [hstep, ih (n - 1) ?_]
        · simp [hc, hr]
          omega
        · intro k
          have := hpre (k + 1)
          rw [List.take_succ_cons, countFnCalls_cons, countDiagFnReturns_cons] at this
          simp [hc, hr] at this
          omega
      · have hstep : stackDelta ev n = n := by simp [stackDelta, hc, hr]
        rw [hstep, ih n ?_]
        · simp [hc, hr]
        · intro k
          have := hpre (k + 1)
          rw [List.take_succ_cons, countFnCalls_cons, countDiagFnReturns_cons] at this
          simp [hc, hr] at this
          omega

/-- Source-defaulting never changes the effect type. -/
lemma resolveSource_type (st : EngineState) (e : Effect) :
    (resolveSource st e).type = e.type := by
  cases he : e.source <;> simp [resolveSource, he]

/-- Source-defaulting never changes the effect depth. -/
lemma resolveSource_depth (st : EngineState) (e : Effect) :
    (resolveSource st e).depth = e.depth := by
  cases he : e.source <;> simp [resolveSource, he]

/-- C6: a successfully processed fn_call event pushes one frame and appends
one contractInvoked effect whose depth field is present exactly when the
stack was non-empty before the push, equal to the stack size before the
push; a successfully processed diagnostic-class fn_return pops the top
frame and appends nothing; and a successful pass over an event list whose
every prefix has at least as many fn_calls as diagnostic fn_returns and
whose totals agree leaves the call stack empty. -/
theorem fn_call_return_stack_discipline :
    (∀ (st : EngineState) (t0 : Topic) (rest : List Topic) (data : EventData)
       (ty : Nat) (cid : Option String) (st' : EngineState),
      t0.value = "fn_call" →
      EventsAnalyzer.processDiagnosticEvent st (t0 :: rest) data ty cid = Except.ok st' →
      st'.callStack = st.effects.length :: st.callStack ∧
      ∃ e, st'.effects = st.effects ++ [e] ∧ e.type = "contractInvoked" ∧
        e.depth = (if st.callStack.length = 0 then none
                   else some st.callStack.length)) ∧
    (∀ (st : EngineState) (t0 : Topic) (rest : List Topic) (data : EventData)
       (cid : Option String) (st' : EngineState),
      t0.value = "fn_return" →
      EventsAnalyzer.processDiagnosticEvent st (t0 :: rest) data 2 cid = Except.ok st' →
      st'.callStack = st.callStack.tail ∧ st'.effects.length = st.effects.length) ∧
    (∀ (st : EngineState) (evs : List DiagEvent) (st' : EngineState),
      st.callStack = [] →
      EventsAnalyzer.analyzeDiagnosticEvents st evs = Except.ok st' →
      (∀ k, countDiagFnReturns (evs.take k) ≤ countFnCalls (evs.take k)) →
      countFnCalls evs = countDiagFnReturns evs →
      st'.callStack = []) := by
  refine ⟨?_, ?_, ?_⟩
  · intro st t0 rest data ty cid st' h0 h
    rw [processDiagnosticEvent_cons, if_pos h0] at h
    obtain ⟨hstack, t1, t2, r, hrest, heff⟩ := procFnCall_ok _ _ _ _ h
    exact ⟨hstack, resolveSource st _, heff,
      by rw [resolveSource_type], by rw [resolveSource_depth]⟩
  · intro st t0 rest data cid st' h0 h
    rw [processDiagnosticEvent_cons, if_neg (by simp [h0]), if_pos h0] at h
    have hret := procFnReturn_ok _ _ _ _ h
    exact ⟨by simpa using hret.1, hret.2⟩
  · intro st evs st' hempty h hpre hbal
    have hlen := analyzeDiagnosticEvents_stack evs st st' h
    rw [hempty] at hlen
    simp only [List.length_nil] at hlen
    rw [foldl_stackDelta evs 0 (by simpa using hpre)] at hlen
    have : st'.callStack.length = 0 := by omega
    exact List.length_eq_zero.mp this

/-- C6 witness: a top-level fn_call pushes frame index 0 and its invocation
effect carries no depth field; the matching diagnostic fn_return pops it; a
balanced two-event list ends with an empty call stack. -/
theorem fn_call_return_stack_discipline_witness :
    (∃ stA, EventsAnalyzer.processDiagnosticEvent
        { source := "GOP", effects := [], callStack := [] }
        [{ arm := "sym", value := "fn_call" }, { arm := "address", value := "CON" },
         { arm := "sym", value := "hello" }]
        EventData.voidD 2 (some "CON") = Except.ok stA ∧
      stA.callStack = [0] ∧
      ∃ e, stA.effects = [e] ∧ e.type = "contractInvoked" ∧ e.depth = none) ∧
    (∃ stB, EventsAnalyzer.processDiagnosticEvent
        { source := "GOP",
          effects := [{ emptyEffect with
            type := "contractInvoked", source := some "GOP",
            contract := some "CON", function := some "hello" }],
          callStack := [0] }
        [{ arm := "sym", value := "fn_return" }]
        EventData.voidD 2 (some "CON") = Except.ok stB ∧
      stB.callStack = [] ∧ stB.effects.length = 1) ∧
    (∃ stC, EventsAnalyzer.analyzeDiagnosticEvents
        { source := "GOP", effects := [], callStack := [] }
        [{ topics := [{ arm := "sym", value := "fn_call" },
                      { arm := "address", value := "CON" },
                      { arm := "sym", value := "hello" }],
           data := EventData.voidD, type := 2, contractId := some "CON",
           inSuccessfulContractCall := true },
         { topics := [{ arm := "sym", value := "fn_return" }],
           data := EventData.voidD, type := 2, contractId := some "CON",
           inSuccessfulContractCall := true }] = Except.ok stC ∧
      stC.callStack = []) := by
  refine ⟨?_, ?_, ?_⟩
  · refine ⟨{ source := "GOP", callStack := [0], effects :=
      [{ emptyEffect with
          type := "contractInvoked", source := some "GOP",
          contract := some "CON", function := some "hello" }] }, by decide, ?_, ?_⟩
    · have h := (fn_call_return_stack_discipline.1
        { source := "GOP", effects := [], callStack := [] }
        { arm := "sym", value := "fn_call" }
        [{ arm := "address", value := "CON" }, { arm := "sym", value := "hello" }]
        EventData.voidD 2 (some "CON")
        { source := "GOP", callStack := [0], effects :=
          [{ emptyEffect with
              type := "contractInvoked", source := some "GOP",
              contract := some "CON", function := some "hello" }] }
        rfl (by decide)).1
      exact h
    · refine ⟨{ emptyEffect with
        type := "contractInvoked", source := some "GOP",
        contract := some "CON", function := some "hello" }, by decide, rfl, rfl⟩
  · refine ⟨{ source := "GOP", callStack := [], effects :=
      [{ emptyEffect with
          type := "contractInvoked", source := some "GOP",
          contract := some "CON", function := some "hello" }] }, by decide, ?_, rfl⟩
    have h := (fn_call_return_stack_discipline.2.1
      { source := "GOP",
        effects := [{ emptyEffect with
          type := "contractInvoked", source := some "GOP",
          contract := some "CON", function := some "hello" }],
        callStack := [0] }
      { arm := "sym", value := "fn_return" } [] EventData.voidD (some "CON")
      { source := "GOP", callStack := [], effects :=
        [{ emptyEffect with
            type := "contractInvoked", source := some "GOP",
            contract := some "CON", function := some "hello" }] }
      rfl (by decide)).1
    exact h
  · refine ⟨{ source := "GOP", callStack := [], effects :=
      [{ emptyEffect with
          type := "contractInvoked", source := some "GOP",
          contract := some "CON", function := some "hello" }] }, by decide, ?_⟩
    exact fn_call_return_stack_discipline.2.2
      { source := "GOP", effects := [], callStack := [] }
      [{ topics := [{ arm := "sym", value := "fn_call" },
                    { arm := "address", value := "CON" },
                    { arm := "sym", value := "hello" }],
         data := EventData.voidD, type := 2, contractId := some "CON",
         inSuccessfulContractCall := true },
       { topics := [{ arm := "sym", value := "fn_return" }],
         data := EventData.voidD, type := 2, contractId := some "CON",
         inSuccessfulContractCall := true }]
      { source := "GOP", callStack := [], effects :=
        [{ emptyEffect with
            type := "contractInvoked", source := some "GOP",
            contract := some "CON", function := some "hello" }] }
      rfl (by decide)
      (by
        intro k
        match k with
        | 0 => decide
        | 1 => decide
        | (n + 2) =>
          simp only [List.take_succ_cons, List.take_nil]
          decide)
      (by decide)
